import Mathlib

/-!
Verification development for the trivia-speed assistant repository.

The Python sources under `src/trivia-speed/scripts/` are shallow-embedded
below.  Python strings are modelled as `List Char` (ASCII semantics for
case conversion, which matches every string the program manipulates);
Python exceptions are modelled with `Except PyExn`; the network and the
external provider SDKs are modelled as explicit behaviour parameters fed
to each backend function.  Every definition is translated directly from
the corresponding Python function, keeping the source's names.
-/

namespace TriviaSpeed

/-! ### Python string primitives (`in`, `split`, `strip`, `lower`, ...) -/

/-- Python `str.lower()` restricted to ASCII (all strings handled by the
program are ASCII). -/
def lowerL (l : List Char) : List Char := l.map Char.toLower

/-- Whitespace test used by `str.strip()` / `\s` / the JSON lexer:
space, tab, carriage return, newline. -/
def isWsChar (c : Char) : Bool := c = ' ' || c = '\t' || c = '\r' || c = '\n'

/-- Python `str.strip()`. -/
def trimL (l : List Char) : List Char :=
  ((l.dropWhile isWsChar).reverse.dropWhile isWsChar).reverse

/-- Does `pat` occur at the head of `l`? -/
def startsWithL : List Char → List Char → Bool
  | [], _ => true
  | _ :: _, [] => false
  | p :: ps, c :: cs => p = c && startsWithL ps cs

/-- Index of the first occurrence of `pat` in `l` (Python `str.find`,
restricted to non-negative results). -/
def subIdx (pat : List Char) : List Char → Option Nat
  | [] => if pat.isEmpty then some 0 else none
  | c :: cs =>
    if startsWithL pat (c :: cs) then some 0
    else (subIdx pat cs).map (· + 1)

/-- Python's `pat in l` substring test. -/
def containsSubL (l pat : List Char) : Bool := (subIdx pat l).isSome

/-- Python `str.split(sep)` for a non-empty separator, via fuel
(the fuel `l.length + 1` always suffices: each step consumes a char). -/
def splitOnFuel (sep : List Char) : Nat → List Char → List (List Char)
  | 0, l => [l]
  | _ + 1, [] => [[]]
  | fuel + 1, c :: cs =>
    if startsWithL sep (c :: cs) && !sep.isEmpty then
      [] :: splitOnFuel sep fuel ((c :: cs).drop sep.length)
    else
      match splitOnFuel sep fuel cs with
      | s :: rest => (c :: s) :: rest
      | [] => [[c]]

/-- Python `str.split(sep)`. -/
def splitOnL (sep l : List Char) : List (List Char) :=
  splitOnFuel sep (l.length + 1) l

/-- Python `line.split(":", 1)[1]` (everything after the first colon);
only used on lines already known to contain a colon. -/
def afterFirstColon (l : List Char) : List Char :=
  match subIdx [':'] l with
  | some i => l.drop (i + 1)
  | none => []

/-- Decimal rendering of a natural number (Python `str(n)` / f-string). -/
def natToStr (n : Nat) : List Char := Nat.toDigits 10 n

/-! ### A model of `json.loads`

A standard recursive-descent JSON parser.  Modelled subset: surrogate
pairs in `\u` escapes and the non-standard `NaN`/`Infinity` literals are
not supported; no input handled in this development uses them. -/

inductive Json where
  | null : Json
  | bool (b : Bool) : Json
  | num (lit : List Char) : Json
  | str (s : List Char) : Json
  | arr (elems : List Json) : Json
  | obj (fields : List (List Char × Json)) : Json

def hexVal (c : Char) : Option Nat :=
  if '0' ≤ c ∧ c ≤ '9' then some (c.toNat - '0'.toNat)
  else if 'a' ≤ c ∧ c ≤ 'f' then some (c.toNat - 'a'.toNat + 10)
  else if 'A' ≤ c ∧ c ≤ 'F' then some (c.toNat - 'A'.toNat + 10)
  else none

def decodeEsc (c : Char) : Option Char :=
  if c = '"' then some '"'
  else if c = '\\' then some '\\'
  else if c = '/' then some '/'
  else if c = 'b' then some (Char.ofNat 8)
  else if c = 'f' then some (Char.ofNat 12)
  else if c = 'n' then some '\n'
  else if c = 'r' then some '\r'
  else if c = 't' then some '\t'
  else none

/-- Body of a JSON string, after the opening quote; returns the decoded
content and the remainder after the closing quote. -/
def parseStringBody : List Char → Option (List Char × List Char)
  | [] => none
  | '"' :: rest => some ([], rest)
  | '\\' :: 'u' :: a :: b :: c :: d :: rest => do
    let ha ← hexVal a
    let hb ← hexVal b
    let hc ← hexVal c
    let hd ← hexVal d
    let (s, r) ← parseStringBody rest
    some (Char.ofNat (((ha * 16 + hb) * 16 + hc) * 16 + hd) :: s, r)
  | '\\' :: e :: rest => do
    let ch ← decodeEsc e
    let (s, r) ← parseStringBody rest
    some (ch :: s, r)
  | c :: rest =>
    if c.toNat < 32 then none
    else do
      let (s, r) ← parseStringBody rest
      some (c :: s, r)

def isNumChar (c : Char) : Bool :=
  c.isDigit || c = '-' || c = '+' || c = '.' || c = 'e' || c = 'E'

/-- Validity of a JSON number literal: `-?(0|[1-9][0-9]*)(\.[0-9]+)?([eE][+-]?[0-9]+)?`. -/
def validNumLit (l : List Char) : Bool :=
  let afterSign := match l with
    | '-' :: rest => rest
    | _ => l
  let intOk : Bool := match afterSign with
    | '0' :: _ => true
    | c :: _ => c.isDigit
    | [] => false
  let afterInt := match afterSign with
    | '0' :: rest => rest
    | _ => afterSign.dropWhile Char.isDigit
  let (fracOk, afterFrac) : Bool × List Char := match afterInt with
    | '.' :: rest => ((rest.takeWhile Char.isDigit).length > 0, rest.dropWhile Char.isDigit)
    | _ => (true, afterInt)
  let expOk : Bool := match afterFrac with
    | 'e' :: rest | 'E' :: rest =>
      let rest' := match rest with
        | '+' :: r => r
        | '-' :: r => r
        | _ => rest
      (rest'.takeWhile Char.isDigit).length > 0 &&
        (rest'.dropWhile Char.isDigit).isEmpty
    | [] => true
    | _ => false
  intOk && fracOk && expOk

def dropWs (l : List Char) : List Char := l.dropWhile isWsChar

mutual

/-- One JSON value (leading whitespace allowed), returning the remainder. -/
def parseVal : Nat → List Char → Option (Json × List Char)
  | 0, _ => none
  | fuel + 1, l =>
    let l := dropWs l
    match l with
    | [] => none
    | c :: rest =>
      if startsWithL ('n' :: 'u' :: 'l' :: 'l' :: []) l then some (.null, l.drop 4)
      else if startsWithL ('t' :: 'r' :: 'u' :: 'e' :: []) l then some (.bool true, l.drop 4)
      else if startsWithL ('f' :: 'a' :: 'l' :: 's' :: 'e' :: []) l then some (.bool false, l.drop 5)
      else if c = '"' then
        (parseStringBody rest).map (fun p => (.str p.1, p.2))
      else if c = '\x7b' then
        let r := dropWs rest
        match r with
        | '\x7d' :: r2 => some (.obj [], r2)
        | _ => (parseFields fuel r).map (fun p => (.obj p.1, p.2))
      else if c = '[' then
        let r := dropWs rest
        match r with
        | ']' :: r2 => some (.arr [], r2)
        | _ => (parseElems fuel r).map (fun p => (.arr p.1, p.2))
      else
        let lit := l.takeWhile isNumChar
        if validNumLit lit then some (.num lit, l.drop lit.length) else none

/-- Comma-separated values up to the closing bracket. -/
def parseElems : Nat → List Char → Option (List Json × List Char)
  | 0, _ => none
  | fuel + 1, l => do
    let (j, r) ← parseVal fuel l
    match dropWs r with
    | ',' :: r2 => do
      let (js, r3) ← parseElems fuel r2
      some (j :: js, r3)
    | ']' :: r2 => some ([j], r2)
    | _ => none

/-- Comma-separated `"key": value` pairs up to the closing brace. -/
def parseFields : Nat → List Char → Option (List (List Char × Json) × List Char)
  | 0, _ => none
  | fuel + 1, l =>
    match dropWs l with
    | '"' :: rest => do
      let (k, r) ← parseStringBody rest
      match dropWs r with
      | ':' :: r2 => do
        let (v, r3) ← parseVal fuel r2
        match dropWs r3 with
        | ',' :: r4 => do
          let (fs, r5) ← parseFields fuel r4
          some ((k, v) :: fs, r5)
        | '\x7d' :: r4 => some ([(k, v)], r4)
        | _ => none
      | _ => none
    | _ => none

end

/-- Model of Python `json.loads`: a complete parse of the input (trailing
whitespace allowed), `none` standing for a raised `JSONDecodeError`. -/
def jsonParse (l : List Char) : Option Json :=
  match parseVal (2 * l.length + 2) l with
  | some (j, rest) => if (dropWs rest).isEmpty then some j else none
  | none => none

/-- Lookup in a parsed JSON object; later duplicate keys win, as in the
`dict` built by `json.loads`. -/
def objGetLast (fields : List (List Char × Json)) (key : List Char) : Option Json :=
  fields.foldl (fun acc kv => if kv.1 = key then some kv.2 else acc) none

/-! ### `perplexity.py`: the response normalizer
`extract_json_from_sonar_reasoning` (lines 110-167).

The three `re.search` calls are modelled by dedicated functions whose
semantics are derived from the patterns:

* `` ```json\s*(.*?)\s*``` `` with `DOTALL` — leftmost match starts at the
  first occurrence of `` ```json ``; the lazy group ends at the first
  following `` ``` ``; the `\s*` anchors (plus the `.strip()` the caller
  applies) trim surrounding whitespace.
* `\{.*"rationale".*"answer".*\}` with `DOTALL` — matches iff some `{` is
  followed (in order) by `"rationale"`, `"answer"` and `}`; the leftmost
  such `{` starts the match and the greedy quantifiers end it at the last
  `}` of the input.
* `"rationale"\s*:\s*"([^"]*)"` (and the `"answer"` twin) — first
  position where the quoted label, optional whitespace, `:`, optional
  whitespace and a complete quoted value occur; the capture is the text
  between the value's quotes.
-/

def thinkTag : List Char := "<think>".data

def jsonFenceTag : List Char := "```json".data

def fence3 : List Char := "```".data

/-- Quoted `"rationale"` literal as it appears in the regexes. -/
def ratLit : List Char := "\"rationale\"".data

/-- Quoted `"answer"` literal as it appears in the regexes. -/
def ansLit : List Char := "\"answer\"".data

/-- Unquoted dict keys. -/
def ratKey : List Char := "rationale".data

def ansKey : List Char := "answer".data

/-- `re.search(r'```json\s*(.*?)\s*```', content, re.DOTALL)` followed by
`.group(1).strip()`: the text between the first `` ```json `` and the
first subsequent `` ``` ``, trimmed.  (A later `` ```json `` occurrence
cannot start the leftmost match instead: any later occurrence begins with
`` ``` `` and would therefore close the earlier one.) -/
def fencedBlock (content : List Char) : Option (List Char) :=
  match subIdx jsonFenceTag content with
  | none => none
  | some i =>
    let after := content.drop (i + 7)
    match subIdx fence3 after with
    | none => none
    | some j => some (trimL (after.take j))

/-- Can `\{.*"rationale".*"answer".*\}` complete after an opening brace,
i.e. does `tail` contain `"rationale"`, then `"answer"`, then `}`? -/
def chainOk (tail : List Char) : Bool :=
  match subIdx ratLit tail with
  | none => false
  | some p =>
    match subIdx ansLit (tail.drop (p + 11)) with
    | none => false
    | some q => (tail.drop (p + 11 + q + 8)).contains '\x7d'

/-- Index of the leftmost `{` from which the brace pattern can match. -/
def braceStart : List Char → Option Nat
  | [] => none
  | c :: cs =>
    if c = '\x7b' && chainOk cs then some 0
    else (braceStart cs).map (· + 1)

/-- Index of the last occurrence of a character. -/
def lastIdxOf (c : Char) : List Char → Option Nat
  | [] => none
  | a :: rest =>
    match lastIdxOf c rest with
    | some i => some (i + 1)
    | none => if a = c then some 0 else none

/-- `re.search(r'\{.*"rationale".*"answer".*\}', content, re.DOTALL)`,
returning `.group(0)`: from the leftmost feasible `{` to the last `}`. -/
def braceMatch (content : List Char) : Option (List Char) :=
  match braceStart content with
  | none => none
  | some i =>
    match lastIdxOf '\x7d' content with
    | some r => some ((content.drop i).take (r + 1 - i))
    | none => none

/-- Attempt the labelled-capture pattern at the current position. -/
def labeledHere (lit : List Char) (l : List Char) : Option (List Char) :=
  if startsWithL lit l then
    match (l.drop lit.length).dropWhile isWsChar with
    | ':' :: r2 =>
      match r2.dropWhile isWsChar with
      | '"' :: r3 =>
        if (r3.dropWhile (fun c => c ≠ '"')).isEmpty then none
        else some (r3.takeWhile (fun c => c ≠ '"'))
      | _ => none
    | _ => none
  else none

/-- `re.search(r'LIT\s*:\s*"([^"]*)"', content).group(1)` where `LIT` is
the quoted label: scan left to right for the first matching position. -/
def labeledCapture (lit : List Char) : List Char → Option (List Char)
  | [] => none
  | c :: cs =>
    match labeledHere lit (c :: cs) with
    | some v => some v
    | none => labeledCapture lit cs

/-- Normalized result shape shared by all backends
(`class TriviaAnalysis(BaseModel)`). -/
structure TriviaAnalysis where
  rationale : List Char
  answer : List Char
  deriving DecidableEq

/-- Ladder step 1 (perplexity.py lines 121-130): if the content contains
`<think>` and a ```` ```json ```` fence, extract the fenced block and
parse it; both a missing fence close and a JSON parse failure fall
through. -/
def sonarStep1 (content : List Char) : Option Json :=
  if containsSubL content thinkTag && containsSubL content jsonFenceTag then
    match fencedBlock content with
    | some s => jsonParse s
    | none => none
  else none

/-- Ladder step 2 (lines 132-139): brace-delimited object containing both
keys, parsed as JSON; a parse failure falls through. -/
def sonarStep2 (content : List Char) : Option Json :=
  match braceMatch content with
  | some s => jsonParse s
  | none => none

/-- The last-resort response of the normalizer (lines 163-167). -/
def parseFailureFallback : Json :=
  Json.obj [(ratKey, .str ("Failed to parse response from model".data)),
            (ansKey, .str ("Unknown (parsing error)".data))]

/-- `extract_json_from_sonar_reasoning` (perplexity.py lines 110-167).
Returns the Python value the function would return; dict literals are
`Json.obj`. -/
def extract_json_from_sonar_reasoning (content : List Char) : Json :=
  match sonarStep1 content with
  | some j => j
  | none =>
  match sonarStep2 content with
  | some j => j
  | none =>
  let rationale := (labeledCapture ratLit content).getD []
  let answer := (labeledCapture ansLit content).getD []
  if !rationale.isEmpty || !answer.isEmpty then
    Json.obj [(ratKey, .str rationale), (ansKey, .str answer)]
  else
    match jsonParse content with
    | some j => j
    | none => parseFailureFallback

/-- The `answer` entry of a normalized value, when it is a JSON object
with a string `answer` field. -/
def answerField (j : Json) : Option (List Char) :=
  match j with
  | .obj fs =>
    match objGetLast fs ansKey with
    | some (.str s) => some s
    | _ => none
  | _ => none

/-! ### Backend invocations

Each `analyze_*` coroutine is embedded as a function of

* its credential (the module-level `*_API_KEY`, `none` when absent from
  the environment),
* the configured timeout (the module-level `API_TIMEOUT`, which only
  feeds error messages here), and
* a network-behaviour parameter standing for everything the provider /
  transport does: a reply, a timeout, or an exception raised while the
  call is processed.

Raised Python exceptions are modelled as `Except.error (e : PyExn)`.
Request preparation (`prepare_api_request`) is pure string/encoding work
that cannot fail and does not influence the reply in this model, so it is
elided.  Exception messages produced by libraries (pydantic validation,
attribute errors) are modelled by fixed stand-in strings; messages built
by the repository's own code are modelled exactly. -/

/-- A raised Python exception (only these two classes escape the
backends; both derive from `Exception`). -/
inductive PyExn where
  | valueError (msg : List Char)
  | timeoutError (msg : List Char)
  deriving DecidableEq

/-- The wrapper applied by each backend's outermost
`except Exception as e: raise ValueError(f"Failed to prepare API request: {e}")`.
Because the inner `raise TimeoutError(...)` / `raise ValueError(...)`
statements execute lexically inside the outer `try`, every error leaves
`analyze_trivia_with_mistral`, `analyze_trivia_with_gpt4o` and
`extract_text_with_gemini` wearing this wrapper. -/
def prepWrap (m : List Char) : List Char :=
  ("Failed to prepare API request: ".data) ++ m

/-- Stand-in for a pydantic validation error's message. -/
def pydanticErrMsg : List Char := "validation error for model fields".data

/-- Stand-in for the `AttributeError` raised by calling `
.get` on a non-dict `json.loads` result. -/
def attrGetErrMsg : List Char := "object has no attribute get".data

/-! #### `mistral.py` -/

inductive MistralNet where
  | reply (content : List Char)
  | timeout
  | raiseDuring (msg : List Char)
  deriving DecidableEq

def mistralKeyMsg : List Char :=
  "Mistral API key not found. Please set it in the .env file.".data

def mistralTimeoutMsg (t : Nat) : List Char :=
  ("Mistral API request timed out after ".data) ++ natToStr t ++ (" seconds".data)

def mistralProcWrap (m : List Char) : List Char :=
  ("Failed to process Mistral response: ".data) ++ m

def ansLabel : List Char := "answer:".data

def ratLabel : List Char := "rationale:".data

/-- One iteration of the line loop in mistral.py lines 189-200, acting on
the state `(rationale, answer)`.  Note that the source splits
`line.lower()`, not `line`, so extracted values are lower-cased. -/
def mistralFallbackStep (st : List Char × List Char) (line0 : List Char) :
    List Char × List Char :=
  let line := trimL line0
  let low := lowerL line
  if startsWithL ansLabel low || containsSubL low ansLabel then
    match (splitOnL ansLabel low).get? 1 with
    | some p => (st.1, trimL p)
    | none => st
  else if startsWithL ratLabel low || containsSubL low ratLabel then
    match (splitOnL ratLabel low).get? 1 with
    | some p => (trimL p, st.2)
    | none => st
  else if st.2.isEmpty && !line.isEmpty then
    (st.1 ++ line ++ [' '], st.2)
  else st

/-- The non-JSON fallback of `analyze_trivia_with_mistral`
(mistral.py lines 180-211), entered when `json.loads(content)` raises. -/
def mistralFallback (content : List Char) : TriviaAnalysis :=
  let lines := splitOnL ['\n'] (trimL content)
  let st :=
    if containsSubL (lowerL content) ratKey || containsSubL (lowerL content) ansKey then
      lines.foldl mistralFallbackStep ([], [])
    else
      match lines with
      | [] => ([], [])
      | _ :: _ =>
        (trimL (List.intercalate [' '] lines.dropLast), trimL ((lines.getLast?).getD []))
  let answer := if st.2.isEmpty then trimL content else st.2
  ⟨trimL st.1, answer⟩

/-- `analyze_trivia_with_mistral` (mistral.py lines 132-221). -/
def analyze_trivia_with_mistral (key : Option (List Char)) (t : Nat)
    (net : MistralNet) : Except PyExn TriviaAnalysis :=
  match key with
  | none => .error (.valueError mistralKeyMsg)
  | some _ =>
    match net with
    | .timeout => .error (.valueError (prepWrap (mistralTimeoutMsg t)))
    | .raiseDuring m => .error (.valueError (prepWrap (mistralProcWrap m)))
    | .reply content =>
      match jsonParse content with
      | some (.obj fs) =>
        match (objGetLast fs ratKey).getD (.str []), (objGetLast fs ansKey).getD (.str []) with
        | .str r, .str a => .ok ⟨r, a⟩
        | _, _ => .error (.valueError (prepWrap (mistralProcWrap pydanticErrMsg)))
      | some _ => .error (.valueError (prepWrap (mistralProcWrap attrGetErrMsg)))
      | none => .ok (mistralFallback content)

/-! #### `chatgpt.py` -/

/-- The OpenAI SDK's `.parse` call returns an already-validated
`TriviaAnalysis`, so a successful reply carries one directly. -/
inductive GptNet where
  | reply (parsed : TriviaAnalysis)
  | timeout
  | raiseDuring (msg : List Char)
  deriving DecidableEq

def gptKeyMsg : List Char :=
  "OpenAI API key not found. Please set it in the .env file.".data

def gptTimeoutMsg (t : Nat) : List Char :=
  ("GPT-4o API request timed out after ".data) ++ natToStr t ++ (" seconds".data)

def gptProcWrap (m : List Char) : List Char :=
  ("Failed to process GPT-4o response: ".data) ++ m

/-- `analyze_trivia_with_gpt4o` (chatgpt.py lines 112-159). -/
def analyze_trivia_with_gpt4o (key : Option (List Char)) (t : Nat)
    (net : GptNet) : Except PyExn TriviaAnalysis :=
  match key with
  | none => .error (.valueError gptKeyMsg)
  | some _ =>
    match net with
    | .timeout => .error (.valueError (prepWrap (gptTimeoutMsg t)))
    | .raiseDuring m => .error (.valueError (prepWrap (gptProcWrap m)))
    | .reply parsed => .ok parsed

/-! #### `ocr_and_gemini.py` -/

/-- `class OCRResult(BaseModel)`. -/
structure OCRResult where
  question : List Char
  options : List (List Char)
  rationale : List Char
  answer : List Char
  deriving DecidableEq

inductive GeminiNet where
  | reply (content : List Char)
  | timeout
  | raiseDuring (msg : List Char)
  deriving DecidableEq

def geminiKeyMsg : List Char :=
  "Gemini API key not found. Please set it in the .env file.".data

def geminiTimeoutMsg (t : Nat) : List Char :=
  ("Gemini API request timed out after ".data) ++ natToStr t ++ (" seconds".data)

def geminiProcWrap (m : List Char) : List Char :=
  ("Failed to process Gemini response: ".data) ++ m

def questionKey : List Char := "question".data

def optionsKey : List Char := "options".data

def optionLit : List Char := "option".data

def reasonLit : List Char := "reason".data

/-- One iteration of the line loop in ocr_and_gemini.py lines 184-194.
The last branch mirrors Python's operator precedence:
`"reason" in low or ("rationale" in low and not rationale)`. -/
def geminiFallbackStep (st : OCRResult) (line0 : List Char) : OCRResult :=
  let line := trimL line0
  let low := lowerL line
  if containsSubL low questionKey && st.question.isEmpty then
    { st with question := if containsSubL line [':'] then trimL (afterFirstColon line) else line }
  else if containsSubL low optionLit ||
      (match line with
       | a :: b :: _ => a.isAlpha && b = '.'
       | _ => false) then
    { st with options := st.options ++
        [if containsSubL line [':'] then trimL (afterFirstColon line) else trimL (line.drop 2)] }
  else if containsSubL low ansKey && st.answer.isEmpty then
    { st with answer := if containsSubL line [':'] then trimL (afterFirstColon line) else line }
  else if containsSubL low reasonLit || (containsSubL low ratKey && st.rationale.isEmpty) then
    { st with rationale := if containsSubL line [':'] then trimL (afterFirstColon line) else line }
  else st

/-- The non-JSON fallback of `extract_text_with_gemini`
(ocr_and_gemini.py lines 171-204). -/
def geminiFallback (content : List Char) : OCRResult :=
  let lines := splitOnL ['\n'] (trimL content)
  let st := lines.foldl geminiFallbackStep ⟨[], [], [], []⟩
  let st := if st.question.isEmpty then { st with question := (lines.head?).getD [] } else st
  let st := if st.answer.isEmpty then { st with answer := (lines.getLast?).getD [] } else st
  if st.rationale.isEmpty then
    { st with rationale := ("Unable to determine rationale from response.".data) }
  else st

/-- Element-wise string extraction for the pydantic `options: list[str]`
field. -/
def jsonStrsOfArr : List Json → Option (List (List Char))
  | [] => some []
  | .str s :: rest => (jsonStrsOfArr rest).map (s :: ·)
  | _ :: _ => none

/-- `extract_text_with_gemini` (ocr_and_gemini.py lines 112-214). -/
def extract_text_with_gemini (key : Option (List Char)) (t : Nat)
    (net : GeminiNet) : Except PyExn OCRResult :=
  match key with
  | none => .error (.valueError geminiKeyMsg)
  | some _ =>
    match net with
    | .timeout => .error (.valueError (prepWrap (geminiTimeoutMsg t)))
    | .raiseDuring m => .error (.valueError (prepWrap (geminiProcWrap m)))
    | .reply content =>
      match jsonParse content with
      | some (.obj fs) =>
        match (objGetLast fs questionKey).getD (.str []),
              (objGetLast fs optionsKey).getD (.arr []),
              (objGetLast fs ratKey).getD (.str []),
              (objGetLast fs ansKey).getD (.str []) with
        | .str q, .arr os, .str r, .str a =>
          match jsonStrsOfArr os with
          | some opts => .ok ⟨q, opts, r, a⟩
          | none => .error (.valueError (prepWrap (geminiProcWrap pydanticErrMsg)))
        | _, _, _, _ => .error (.valueError (prepWrap (geminiProcWrap pydanticErrMsg)))
      | some _ => .error (.valueError (prepWrap (geminiProcWrap attrGetErrMsg)))
      | none => .ok (geminiFallback content)

/-! #### `perplexity.py`: `analyze_trivia_with_perplexity` -/

/-- A reply carries the HTTP status and, for status 200, the message
content extracted from the response envelope (the envelope bookkeeping
`result["choices"][0]["message"]["content"]` is elided). -/
inductive PerplexityNet where
  | reply (status : Nat) (content : List Char)
  | timeout
  | raiseDuring (msg : List Char)
  deriving DecidableEq

def perplexityTimeoutRat (t : Nat) : List Char :=
  ("Request timed out after ".data) ++ natToStr t ++ (" seconds".data)

def apiErrorRat (status : Nat) : List Char :=
  ("API error: ".data) ++ natToStr status

def sonarName : List Char := "sonar".data

def sonarProName : List Char := "sonar-pro".data

def sonarReasoningName : List Char := "sonar-reasoning".data

/-- `TriviaAnalysis(**parsed_content)`: pydantic accepts a dict holding
string `rationale` and `answer` entries (extra keys are ignored) and
raises otherwise. -/
def mkTriviaFromJson (j : Json) : Option TriviaAnalysis :=
  match j with
  | .obj fs =>
    match objGetLast fs ratKey, objGetLast fs ansKey with
    | some (.str r), some (.str a) => some ⟨r, a⟩
    | _, _ => none
  | _ => none

/-- `analyze_trivia_with_perplexity` (perplexity.py lines 169-267).
This backend never raises: every branch returns a value, and the missing
credential is the only input mapped to `none`. -/
def analyze_trivia_with_perplexity (key : Option (List Char)) (t : Nat)
    (model : List Char) (net : PerplexityNet) : Option TriviaAnalysis :=
  match key with
  | none => none
  | some _ =>
    match net with
    | .timeout => some ⟨perplexityTimeoutRat t, ("Error (timeout)".data)⟩
    | .raiseDuring m => some ⟨("Error: ".data) ++ m, ("Error (processing failed)".data)⟩
    | .reply status content =>
      if status ≠ 200 then
        some ⟨apiErrorRat status, ("Error (API failed)".data)⟩
      else
        match (if model = sonarReasoningName
               then some (extract_json_from_sonar_reasoning content)
               else jsonParse content) with
        | none => some ⟨("Failed to parse JSON response".data), ("Error (parsing failed)".data)⟩
        | some j =>
          match mkTriviaFromJson j with
          | some ta => some ta
          | none => some ⟨("Error: ".data) ++ pydanticErrMsg, ("Error (processing failed)".data)⟩

/-! ### `main.py`: the orchestrator

The `process_with_*` wrappers convert whatever their backend returns or
raises into a reportable outcome (`BackendOutcome` in the specification);
the printed terminal line is a rendering of that outcome, so the outcome
value carries the result or the exception detail.  `async_main` is
embedded as the list of launch/report events one run produces.  The
`asyncio.gather` interleaving of independent tasks is abstracted to a
canonical order (the claims below concern which events occur and the
data they carry, not their relative order). -/

/-- A backend's reportable outcome. -/
inductive Outcome where
  | success (t : TriviaAnalysis)
  | ocrSuccess (q : OCRResult)
  | timedOut
  | failed (msg : List Char)
  deriving DecidableEq

/-- `process_with_gpt` (main.py lines 79-105): `except TimeoutError`
reports a timeout, `except Exception` reports a failure; nothing
propagates further. -/
def process_with_gpt (r : Except PyExn TriviaAnalysis) : Outcome :=
  match r with
  | .ok t => .success t
  | .error (.timeoutError _) => .timedOut
  | .error (.valueError m) => .failed m

/-- `process_with_mistral` (main.py lines 107-133). -/
def process_with_mistral (r : Except PyExn TriviaAnalysis) : Outcome :=
  match r with
  | .ok t => .success t
  | .error (.timeoutError _) => .timedOut
  | .error (.valueError m) => .failed m

/-- The message printed by `process_with_perplexity` when the backend
returned `None` (main.py lines 152-157). -/
def perplexityNoneMsg : List Char :=
  "Error: Failed to get response from Perplexity".data

/-- `process_with_perplexity` (main.py lines 135-186): a `None` result is
reported as a failure, any other result as a success; its own
`except` clauses cannot fire because the backend never raises. -/
def process_with_perplexity (key : Option (List Char)) (t : Nat)
    (model : List Char) (net : PerplexityNet) : Outcome :=
  match analyze_trivia_with_perplexity key t model net with
  | none => .failed perplexityNoneMsg
  | some ta => .success ta

/-- `process_with_gemini_ocr` (main.py lines 188-240): returns the OCR
result for publication to the dependent backends (`None` on any error)
and reports an outcome. -/
def process_with_gemini_ocr (key : Option (List Char)) (t : Nat)
    (net : GeminiNet) : Option OCRResult × Outcome :=
  match extract_text_with_gemini key t net with
  | .ok q => (some q, .ocrSuccess q)
  | .error (.timeoutError _) => (none, .timedOut)
  | .error (.valueError m) => (none, .failed m)

/-- The CLI flags consumed by `async_main`. -/
structure Args where
  no_gpt : Bool
  no_mistral : Bool
  no_gemini_ocr : Bool
  no_sonar : Bool
  no_sonar_pro : Bool
  no_sonar_reasoning : Bool
  only_sonar : Bool
  only_sonar_pro : Bool
  only_sonar_reasoning : Bool
  show_ocr : Bool
  deriving DecidableEq

/-- The flag normalization at the top of `async_main`
(main.py lines 246-277). -/
def applyOnlyFlags (a : Args) : Args :=
  if a.only_sonar || a.only_sonar_pro || a.only_sonar_reasoning then
    let a := { a with no_gpt := true, no_mistral := true, no_gemini_ocr := false }
    let a :=
      if a.only_sonar then
        { a with no_sonar := false, no_sonar_pro := true, no_sonar_reasoning := true }
      else if a.only_sonar_pro then
        { a with no_sonar := true, no_sonar_pro := false, no_sonar_reasoning := true }
      else
        { a with no_sonar := true, no_sonar_pro := true, no_sonar_reasoning := false }
    { a with show_ocr := false }
  else a

/-- Credentials present in the environment. -/
structure Keys where
  openai : Option (List Char)
  mistral : Option (List Char)
  gemini : Option (List Char)
  perplexity : Option (List Char)
  deriving DecidableEq

/-- One network behaviour per launched call. -/
structure Nets where
  gpt : GptNet
  mistral : MistralNet
  gemini : GeminiNet
  sonar : PerplexityNet
  sonarPro : PerplexityNet
  sonarReasoning : PerplexityNet
  deriving DecidableEq

/-- Observable events of one run: backend launches (with the input they
receive) and reported outcomes. -/
inductive Event where
  | gptReported (o : Outcome)
  | mistralReported (o : Outcome)
  | ocrInvoked
  | ocrReported (o : Outcome)
  | perplexityInvoked (model : List Char) (q : OCRResult)
  | perplexityReported (model : List Char) (o : Outcome)
  deriving DecidableEq

/-- Launch-and-report events of one enabled Perplexity model
(main.py lines 335-342 plus `process_with_perplexity`). -/
def perplexityModelEvents (key : Option (List Char)) (t : Nat)
    (model : List Char) (net : PerplexityNet) (q : OCRResult) : List Event :=
  [.perplexityInvoked model q,
   .perplexityReported model (process_with_perplexity key t model net)]

/-- The `process_ocr_and_perplexity` task (main.py lines 316-346): run
the OCR backend once, publish its result, and launch the enabled
Perplexity models only when it produced one; on `None` the task returns
with no further events. -/
def process_ocr_and_perplexity (a : Args) (ks : Keys) (ns : Nets) (t : Nat) :
    List Event :=
  if a.no_gemini_ocr then []
  else
    match process_with_gemini_ocr ks.gemini t ns.gemini with
    | (some q, o) =>
      [.ocrInvoked, .ocrReported o]
      ++ (if a.no_sonar then [] else perplexityModelEvents ks.perplexity t sonarName ns.sonar q)
      ++ (if a.no_sonar_pro then [] else perplexityModelEvents ks.perplexity t sonarProName ns.sonarPro q)
      ++ (if a.no_sonar_reasoning then [] else perplexityModelEvents ks.perplexity t sonarReasoningName ns.sonarReasoning q)
    | (none, o) => [.ocrInvoked, .ocrReported o]

/-- `async_main` (main.py lines 242-358) as the event list of one run. -/
def async_main_events (a0 : Args) (ks : Keys) (ns : Nets) (t : Nat) : List Event :=
  let a := applyOnlyFlags a0
  (if a.no_gpt then []
   else [.gptReported (process_with_gpt (analyze_trivia_with_gpt4o ks.openai t ns.gpt))])
  ++ (if a.no_mistral then []
      else [.mistralReported (process_with_mistral (analyze_trivia_with_mistral ks.mistral t ns.mistral))])
  ++ process_ocr_and_perplexity a ks ns t

/-- Is the event an OCR launch? -/
def isOcrInvokedEv : Event → Bool
  | .ocrInvoked => true
  | _ => false

/-- Counts the OCR launches in a run. -/
def countOcrInvoked (es : List Event) : Nat :=
  (es.filter isOcrInvokedEv).length

/-- Is the event a launch or report of a dependent (Perplexity) backend? -/
def isPerplexityEvent : Event → Bool
  | .perplexityInvoked _ _ => true
  | .perplexityReported _ _ => true
  | _ => false

/-! ### Concrete inputs used by the witnesses and counterexamples below -/

/-- A raw reply whose only recognizable feature is a quoted rationale
label with a non-empty value. -/
def cRatOnly : List Char := "\"rationale\": \"r\"".data

/-- A raw reply whose quoted rationale label captures the empty string. -/
def cRatEmpty : List Char := "\"rationale\": \"\"".data

/-- A reasoning-trace reply containing both a fenced JSON block and a
plain `answer:`-labelled line naming a different answer. -/
def cThinkBoth : List Char :=
  "<think>t</think> ```json\n\x7b\"rationale\": \"R1\", \"answer\": \"Paris\"\x7d\n```\nanswer: Microsoft".data

/-- The fenced block inside `cThinkBoth`, as extracted. -/
def cThinkBlock : List Char :=
  "\x7b\"rationale\": \"R1\", \"answer\": \"Paris\"\x7d".data

/-- The JSON value of `cThinkBlock`. -/
def cThinkJson : Json :=
  Json.obj [(ratKey, .str ("R1".data)), (ansKey, .str ("Paris".data))]

/-- The raw stub reply of the specification's concrete scenario. -/
def cScenario : List Char :=
  "Rationale: Founded in 1975 by Gates and Allen.\nAnswer: Microsoft".data

/-- A valid JSON object reply that lacks an `answer` key. -/
def cRatObjOnly : List Char := "\x7b\"rationale\": \"r\"\x7d".data

/-- A free-text reply with no labels at all. -/
def cNoLabels : List Char := "no labels here".data

/-- All CLI flags off: every backend enabled. -/
def defaultArgs : Args :=
  ⟨false, false, false, false, false, false, false, false, false, false⟩

def demoKey : List Char := "key".data

/-- Every credential present. -/
def cKeys : Keys := ⟨some demoKey, some demoKey, some demoKey, some demoKey⟩

def ta0 : TriviaAnalysis := ⟨"gpt rationale".data, "B".data⟩

def taM : TriviaAnalysis := ⟨"m".data, "A".data⟩

def cMistralJson : List Char := "\x7b\"rationale\": \"m\", \"answer\": \"A\"\x7d".data

/-- The OCR result published in the happy-path runs below. -/
def demoQ : OCRResult :=
  ⟨"Q1".data, [("A1".data), ("B1".data)], "R".data, "A1".data⟩

def cGeminiJson : List Char :=
  "\x7b\"question\": \"Q1\", \"options\": [\"A1\", \"B1\"], \"rationale\": \"R\", \"answer\": \"A1\"\x7d".data

def cPerpJson : List Char := "\x7b\"rationale\": \"pr\", \"answer\": \"pa\"\x7d".data

def taP : TriviaAnalysis := ⟨"pr".data, "pa".data⟩

/-- Behaviours of a run where every call succeeds. -/
def cNetsOk : Nets :=
  ⟨.reply ta0, .reply cMistralJson, .reply cGeminiJson,
   .reply 200 cPerpJson, .reply 200 cPerpJson, .reply 200 cPerpJson⟩

/-- Behaviours of a run where the OCR call times out and everything else
would succeed. -/
def cNets2 : Nets :=
  ⟨.reply ta0, .reply cMistralJson, .timeout,
   .reply 200 cPerpJson, .reply 200 cPerpJson, .reply 200 cPerpJson⟩

/-! ### Theorems -/

/-- C4: for every input string that contains both a reasoning-trace
marker and a fenced JSON block, where the fenced block parses as JSON,
`extract_json_from_sonar_reasoning` returns the value parsed from the
fenced block — ladder step 1 is applied before any later step, so a plain
`answer:`-labelled line elsewhere in the input is ignored. -/
theorem C4_step1_preferred (content s : List Char) (j : Json)
    (hthink : containsSubL content thinkTag = true)
    (hfence : containsSubL content jsonFenceTag = true)
    (hblock : fencedBlock content = some s)
    (hparse : jsonParse s = some j) :
    extract_json_from_sonar_reasoning content = j := by
  have h1 : sonarStep1 content = some j := by
    simp [sonarStep1, hthink, hfence, hblock, hparse]
  simp [extract_json_from_sonar_reasoning, h1]

/-- C4 witness: a concrete reply holding both a reasoning-trace JSON
block (answer `Paris`) and a plain `answer: Microsoft` line normalizes to
the fenced JSON's value. -/
theorem C4_step1_preferred_witness :
    containsSubL cThinkBoth thinkTag = true
    ∧ containsSubL cThinkBoth jsonFenceTag = true
    ∧ fencedBlock cThinkBoth = some cThinkBlock
    ∧ jsonParse cThinkBlock = some cThinkJson
    ∧ extract_json_from_sonar_reasoning cThinkBoth = cThinkJson
    ∧ answerField cThinkJson = some ("Paris".data) :=
  ⟨rfl, rfl, rfl, rfl,
   C4_step1_preferred cThinkBoth cThinkBlock cThinkJson rfl rfl rfl rfl, rfl⟩

/-- C5: on the specification's concrete scenario reply the mistral
fallback parser does extract the two labelled values, but it splits the
lower-cased copy of each line (`line.lower().split("answer:")`), so the
values are reported in lower case — `microsoft`, not `Microsoft` as the
claim requires.  The invocation is shown end to end: the reply is not
JSON, so the success outcome carries the lower-cased fields. -/
theorem C5_scenario_lowercased :
    analyze_trivia_with_mistral (some demoKey) 15 (.reply cScenario)
      = .ok ⟨("founded in 1975 by gates and allen.".data), ("microsoft".data)⟩
    ∧ mistralFallback cScenario
        ≠ ⟨("Founded in 1975 by Gates and Allen.".data), ("Microsoft".data)⟩ := by
  exact ⟨rfl, by decide⟩

/-- C9: whenever the Perplexity API replies with a non-200 status, the
backend returns a success-shaped `TriviaAnalysis` whose answer is
`Error (API failed)` and whose rationale embeds the status code — not
`None`, not a distinct failure value, and no exception. -/
theorem C9_non_200_encoded (k : List Char) (t status : Nat)
    (model content : List Char) (h : status ≠ 200) :
    analyze_trivia_with_perplexity (some k) t model (.reply status content)
      = some ⟨apiErrorRat status, ("Error (API failed)".data)⟩ := by
  simp [analyze_trivia_with_perplexity, h]

/-- C9 witness: a 500 reply yields rationale `API error: 500` and answer
`Error (API failed)`. -/
theorem C9_non_200_encoded_witness :
    (500 : Nat) ≠ 200
    ∧ analyze_trivia_with_perplexity (some demoKey) 15 sonarProName
        (.reply 500 ("ignored".data))
        = some ⟨("API error: 500".data), ("Error (API failed)".data)⟩ :=
  ⟨by decide,
   C9_non_200_encoded demoKey 15 500 sonarProName ("ignored".data) (by decide)⟩

/-- C1 counterexample: the claim "for every input string the normalizer
returns an AnalysisResult-shaped value with a non-empty answer" is false.
On the input `"rationale": "r"` only the rationale pattern matches, and
the returned dict carries `answer = ""`. -/
theorem C1_counterexample :
    ¬ (∀ content : List Char,
        ∃ a, answerField (extract_json_from_sonar_reasoning content) = some a
          ∧ a ≠ []) := by
  intro h
  obtain ⟨a, ha, hne⟩ := h cRatOnly
  have hv : answerField (extract_json_from_sonar_reasoning cRatOnly) = some [] := rfl
  rw [hv] at ha
  exact hne (Option.some.inj ha).symm

/-- C1 amended: for every input string the normalizer returns a value
through its five-step fallback ladder and never throws; when no ladder
step extracts anything the answer is the non-empty sentinel
`Unknown (parsing error)`; however the answer field may be the empty
string when a labelled-capture or parsed-JSON step supplies it. -/
theorem C1_ladder_total (content : List Char) :
    (∃ j, sonarStep1 content = some j
       ∧ extract_json_from_sonar_reasoning content = j)
    ∨ (∃ j, sonarStep2 content = some j
       ∧ extract_json_from_sonar_reasoning content = j)
    ∨ (((labeledCapture ratLit content).getD [] ≠ []
          ∨ (labeledCapture ansLit content).getD [] ≠ [])
       ∧ extract_json_from_sonar_reasoning content
           = Json.obj [(ratKey, .str ((labeledCapture ratLit content).getD [])),
                       (ansKey, .str ((labeledCapture ansLit content).getD []))])
    ∨ (∃ j, jsonParse content = some j
       ∧ extract_json_from_sonar_reasoning content = j)
    ∨ (extract_json_from_sonar_reasoning content = parseFailureFallback
       ∧ answerField parseFailureFallback = some ("Unknown (parsing error)".data)
       ∧ ("Unknown (parsing error)".data) ≠ []) := by
  cases h1 : sonarStep1 content with
  | some j =>
    exact Or.inl ⟨j, rfl, by simp [extract_json_from_sonar_reasoning, h1]⟩
  | none =>
    cases h2 : sonarStep2 content with
    | some j =>
      exact Or.inr (Or.inl ⟨j, rfl, by
        simp [extract_json_from_sonar_reasoning, h1, h2]⟩)
    | none =>
      by_cases h3 : (!((labeledCapture ratLit content).getD []).isEmpty
          || !((labeledCapture ansLit content).getD []).isEmpty) = true
      · refine Or.inr (Or.inr (Or.inl ⟨?_, ?_⟩))
        · simpa [List.isEmpty_iff] using h3
        · simp [extract_json_from_sonar_reasoning, h1, h2, h3]
      · cases h4 : jsonParse content with
        | some j =>
          exact Or.inr (Or.inr (Or.inr (Or.inl ⟨j, rfl, by
            simp [extract_json_from_sonar_reasoning, h1, h2, h3, h4]⟩)))
        | none =>
          exact Or.inr (Or.inr (Or.inr (Or.inr ⟨by
            simp [extract_json_from_sonar_reasoning, h1, h2, h3, h4], rfl,
            by decide⟩)))

/-- C10 counterexample: the claim "whenever the rationale pattern matches
but no answer pattern matches (and no earlier ladder step succeeds), the
result's answer is the empty string rather than the parse-failure
sentinel" is false.  On the input `"rationale": ""` the rationale pattern
matches (capturing the empty string), no answer pattern matches and no
earlier step succeeds; yet both extracted strings are falsy in
`if rationale or answer`, so the code falls through to the whole-content
parse and returns the sentinel. -/
theorem C10_counterexample :
    ¬ (∀ (content r : List Char),
        sonarStep1 content = none → sonarStep2 content = none →
        labeledCapture ratLit content = some r →
        labeledCapture ansLit content = none →
        answerField (extract_json_from_sonar_reasoning content) = some []) := by
  intro h
  have := h cRatEmpty [] rfl rfl rfl rfl
  have hv : answerField (extract_json_from_sonar_reasoning cRatEmpty)
      = some ("Unknown (parsing error)".data) := rfl
  rw [hv] at this
  exact absurd (Option.some.inj this) (by decide)

/-- C10 amended: whenever the rationale pattern captures a *non-empty*
value, no answer pattern matches, and no earlier ladder step succeeds,
the normalizer returns a dict carrying the captured rationale and the
empty-string answer — not the parse-failure sentinel. -/
theorem C10_rationale_only_empty_answer (content r : List Char)
    (h1 : sonarStep1 content = none) (h2 : sonarStep2 content = none)
    (hr : labeledCapture ratLit content = some r) (hrne : r ≠ [])
    (ha : labeledCapture ansLit content = none) :
    extract_json_from_sonar_reasoning content
      = Json.obj [(ratKey, .str r), (ansKey, .str [])] := by
  simp [extract_json_from_sonar_reasoning, h1, h2, hr, ha,
    List.isEmpty_iff, hrne]

/-- C10 witness: on `"rationale": "r"` every hypothesis holds and the
result is the `{rationale: "r", answer: ""}` dict. -/
theorem C10_rationale_only_empty_answer_witness :
    sonarStep1 cRatOnly = none
    ∧ sonarStep2 cRatOnly = none
    ∧ labeledCapture ratLit cRatOnly = some ('r' :: [])
    ∧ labeledCapture ansLit cRatOnly = none
    ∧ extract_json_from_sonar_reasoning cRatOnly
        = Json.obj [(ratKey, .str ('r' :: [])), (ansKey, .str [])] :=
  ⟨rfl, rfl, rfl, rfl,
   C10_rationale_only_empty_answer cRatOnly ('r' :: []) rfl rfl rfl (by decide) rfl⟩

/-- C3 counterexample: the claim "every Success outcome carries a
non-empty answer" is false for the mistral backend: a well-formed JSON
reply that simply lacks the `answer` key is parsed on the success path
with `result.get("answer", "")`, yielding a Success whose answer is the
empty string — no sentinel is substituted there. -/
theorem C3_counterexample :
    ¬ (∀ (key : Option (List Char)) (t : Nat) (net : MistralNet)
        (ta : TriviaAnalysis),
        analyze_trivia_with_mistral key t net = .ok ta → ta.answer ≠ []) := by
  intro h
  exact h (some demoKey) 15 (.reply cRatObjOnly) ⟨('r' :: []), []⟩ rfl rfl

/-- C3 amended: the sentinel substitution exists only on the mistral
backend's non-JSON fallback path, where it guarantees a non-empty answer
for every reply that is not pure whitespace (`answer = content.strip()`
when nothing else was found); on the JSON success path the answer is
taken from the parsed reply as-is and may be empty. -/
theorem C3_fallback_answer_nonempty (content : List Char)
    (h : trimL content ≠ []) : (mistralFallback content).answer ≠ [] := by
  have key : ∀ st : List Char × List Char,
      (if st.2.isEmpty then trimL content else st.2) ≠ [] := by
    intro st
    by_cases hst : st.2.isEmpty
    · simpa [hst] using h
    · have hst' : st.2 ≠ [] := by simpa [List.isEmpty_iff] using hst
      simpa [hst] using hst'
  simpa [mistralFallback] using key _

/-- C3 witness: a label-free, non-whitespace reply that fails JSON
parsing still produces a non-empty answer via the fallback. -/
theorem C3_fallback_answer_nonempty_witness :
    trimL cNoLabels ≠ [] ∧ (mistralFallback cNoLabels).answer ≠ [] :=
  ⟨by decide, C3_fallback_answer_nonempty cNoLabels (by decide)⟩

/-- Helper: membership in an if-empty list implies membership in the
else branch. -/
theorem mem_ite_nil (e : Event) (c : Bool) (l : List Event)
    (h : e ∈ if c then [] else l) : e ∈ l := by
  cases c
  · simpa using h
  · simp at h

/-- Helper: counting OCR launches distributes over concatenation. -/
theorem countOcr_append (xs ys : List Event) :
    countOcrInvoked (xs ++ ys) = countOcrInvoked xs + countOcrInvoked ys := by
  simp [countOcrInvoked, List.filter_append]

/-- Helper: the `process_ocr_and_perplexity` task performs exactly one
OCR launch when OCR is enabled and none otherwise. -/
theorem countOcr_ocr_part (a : Args) (ks : Keys) (ns : Nets) (t : Nat) :
    countOcrInvoked (process_ocr_and_perplexity a ks ns t)
      = if a.no_gemini_ocr then 0 else 1 := by
  unfold process_ocr_and_perplexity
  by_cases hg : a.no_gemini_ocr
  · simp [hg, countOcrInvoked]
  · rcases hq : process_with_gemini_ocr ks.gemini t ns.gemini with ⟨qq, o⟩
    rcases qq with _ | q
    · simp [hg, hq, countOcrInvoked, isOcrInvokedEv]
    · simp only [hg, hq, Bool.false_eq_true, if_false]
      split_ifs <;>
        simp [countOcrInvoked, isOcrInvokedEv, perplexityModelEvents,
          List.filter_append]

/-- Helper: a run performs exactly one OCR launch when OCR is enabled
(after flag normalization) and none otherwise. -/
theorem countOcr_async (a : Args) (ks : Keys) (ns : Nets) (t : Nat) :
    countOcrInvoked (async_main_events a ks ns t)
      = if (applyOnlyFlags a).no_gemini_ocr then 0 else 1 := by
  unfold async_main_events
  rw [countOcr_append, countOcr_append, countOcr_ocr_part]
  by_cases h1 : (applyOnlyFlags a).no_gpt <;>
    by_cases h2 : (applyOnlyFlags a).no_mistral <;>
      simp [h1, h2, countOcrInvoked, isOcrInvokedEv]

/-- Helper: a dependent backend is launched only with the published OCR
result. -/
theorem perplexityInvoked_pub (a : Args) (ks : Keys) (ns : Nets) (t : Nat)
    (m : List Char) (q : OCRResult)
    (hmem : Event.perplexityInvoked m q ∈ async_main_events a ks ns t) :
    (process_with_gemini_ocr ks.gemini t ns.gemini).1 = some q := by
  unfold async_main_events at hmem
  simp only [List.mem_append] at hmem
  rcases hmem with (h | h) | h
  · exact absurd (mem_ite_nil _ _ _ h) (by simp)
  · exact absurd (mem_ite_nil _ _ _ h) (by simp)
  · unfold process_ocr_and_perplexity at h
    rcases hq : process_with_gemini_ocr ks.gemini t ns.gemini with ⟨qq, o⟩
    rw [hq] at h
    by_cases hg : (applyOnlyFlags a).no_gemini_ocr
    · simp [hg] at h
    · simp only [hg, Bool.false_eq_true, if_false] at h
      rcases qq with _ | q2
      · simp at h
      · simp only [List.mem_cons, List.mem_append] at h
        rcases h with (((h | h | h) | h) | h) | h
        · simp at h
        · simp at h
        · simp at h
        · have h2 := mem_ite_nil _ _ _ h
          simp [perplexityModelEvents] at h2
          rw [h2.2]
        · have h2 := mem_ite_nil _ _ _ h
          simp [perplexityModelEvents] at h2
          rw [h2.2]
        · have h2 := mem_ite_nil _ _ _ h
          simp [perplexityModelEvents] at h2
          rw [h2.2]

/-- Helper: the GPT wrapper's except clauses cover every exception class
a backend can raise, yielding one of the three outcome shapes. -/
theorem outcome_cases_of_wrap (r : Except PyExn TriviaAnalysis) :
    (∃ ta, process_with_gpt r = .success ta)
    ∨ (∃ m, process_with_gpt r = .failed m)
    ∨ process_with_gpt r = .timedOut := by
  rcases r with e | ta
  · rcases e with m | m
    · exact Or.inr (Or.inl ⟨m, rfl⟩)
    · exact Or.inr (Or.inr rfl)
  · exact Or.inl ⟨ta, rfl⟩

/-- Helper: same coverage for the Mistral wrapper. -/
theorem outcome_cases_of_wrap_m (r : Except PyExn TriviaAnalysis) :
    (∃ ta, process_with_mistral r = .success ta)
    ∨ (∃ m, process_with_mistral r = .failed m)
    ∨ process_with_mistral r = .timedOut := by
  rcases r with e | ta
  · rcases e with m | m
    · exact Or.inr (Or.inl ⟨m, rfl⟩)
    · exact Or.inr (Or.inr rfl)
  · exact Or.inl ⟨ta, rfl⟩

/-- C6: every backend-level error (missing key, timeout, transport or
provider exception) is caught at the backend boundary and converted into
a reportable outcome; for every input the wrapped invocation yields a
`BackendOutcome`-shaped value (success, failure, or timeout) — no
exception reaches the orchestrator. -/
theorem C6_errors_become_outcomes :
    (∀ (k : Option (List Char)) (t : Nat) (n : GptNet),
      (∃ ta, process_with_gpt (analyze_trivia_with_gpt4o k t n) = .success ta)
      ∨ (∃ m, process_with_gpt (analyze_trivia_with_gpt4o k t n) = .failed m)
      ∨ process_with_gpt (analyze_trivia_with_gpt4o k t n) = .timedOut)
    ∧ (∀ (k : Option (List Char)) (t : Nat) (n : MistralNet),
      (∃ ta, process_with_mistral (analyze_trivia_with_mistral k t n) = .success ta)
      ∨ (∃ m, process_with_mistral (analyze_trivia_with_mistral k t n) = .failed m)
      ∨ process_with_mistral (analyze_trivia_with_mistral k t n) = .timedOut)
    ∧ (∀ (k : Option (List Char)) (t : Nat) (model : List Char) (n : PerplexityNet),
      (∃ ta, process_with_perplexity k t model n = .success ta)
      ∨ (∃ m, process_with_perplexity k t model n = .failed m))
    ∧ (∀ (k : Option (List Char)) (t : Nat) (n : GeminiNet),
      (∃ q, (process_with_gemini_ocr k t n).2 = .ocrSuccess q)
      ∨ (∃ m, (process_with_gemini_ocr k t n).2 = .failed m)
      ∨ (process_with_gemini_ocr k t n).2 = .timedOut) := by
  refine ⟨?_, ?_, ?_, ?_⟩
  · intro k t n
    exact outcome_cases_of_wrap _
  · intro k t n
    exact outcome_cases_of_wrap_m _
  · intro k t model n
    rcases h : analyze_trivia_with_perplexity k t model n with _ | ta
    · exact Or.inr ⟨perplexityNoneMsg, by simp [process_with_perplexity, h]⟩
    · exact Or.inl ⟨ta, by simp [process_with_perplexity, h]⟩
  · intro k t n
    rcases h : extract_text_with_gemini k t n with e | q
    · rcases e with m | m
      · exact Or.inr (Or.inl ⟨m, by simp [process_with_gemini_ocr, h]⟩)
      · exact Or.inr (Or.inr (by simp [process_with_gemini_ocr, h]))
    · exact Or.inl ⟨q, by simp [process_with_gemini_ocr, h]⟩

/-- C7: a backend whose credential is absent reports a dedicated
configuration-error result whose value does not depend on the network
behaviour or the configured timeout (no network attempt, no timeout
wait): Perplexity returns `None` — and `None` is reserved for exactly
this case — while the other three raise their specific
"key not found" `ValueError`.  A missing key leaves the other backends'
reported events untouched: with the OpenAI key absent, Mistral still
reports its own outcome and the GPT backend reports the dedicated
failure. -/
theorem C7_missing_key_immediate :
    (∀ (t : Nat) (model : List Char) (net : PerplexityNet),
        analyze_trivia_with_perplexity none t model net = none)
    ∧ (∀ (k : List Char) (t : Nat) (model : List Char) (net : PerplexityNet),
        analyze_trivia_with_perplexity (some k) t model net ≠ none)
    ∧ (∀ (t : Nat) (net : GptNet),
        analyze_trivia_with_gpt4o none t net = .error (.valueError gptKeyMsg))
    ∧ (∀ (t : Nat) (net : MistralNet),
        analyze_trivia_with_mistral none t net = .error (.valueError mistralKeyMsg))
    ∧ (∀ (t : Nat) (net : GeminiNet),
        extract_text_with_gemini none t net = .error (.valueError geminiKeyMsg))
    ∧ (∀ (a : Args) (ks : Keys) (ns : Nets) (t : Nat),
        (applyOnlyFlags a).no_mistral = false →
        Event.mistralReported
            (process_with_mistral (analyze_trivia_with_mistral ks.mistral t ns.mistral))
          ∈ async_main_events a { ks with openai := none } ns t)
    ∧ (∀ (a : Args) (ks : Keys) (ns : Nets) (t : Nat),
        (applyOnlyFlags a).no_gpt = false →
        Event.gptReported (.failed gptKeyMsg)
          ∈ async_main_events a { ks with openai := none } ns t) := by
  refine ⟨fun t model net => rfl, ?_, fun t net => rfl, fun t net => rfl, fun t net => rfl, ?_, ?_⟩
  · intro k t model net h
    rcases net with ⟨s, c⟩ | _ | m
    · by_cases hs : s ≠ 200
      · simp [analyze_trivia_with_perplexity, hs] at h
      · rcases hp : (if model = sonarReasoningName
            then some (extract_json_from_sonar_reasoning c)
            else jsonParse c) with _ | j
        · simp [analyze_trivia_with_perplexity, hs, hp] at h
        · rcases ht : mkTriviaFromJson j with _ | ta <;>
            simp [analyze_trivia_with_perplexity, hs, hp, ht] at h
    · simp [analyze_trivia_with_perplexity] at h
    · simp [analyze_trivia_with_perplexity] at h
  · intro a ks ns t hf
    unfold async_main_events
    simp [hf]
  · intro a ks ns t hf
    unfold async_main_events
    simp [hf, analyze_trivia_with_gpt4o, process_with_gpt]

/-- C7 witness: concrete run with the OpenAI key absent. -/
theorem C7_missing_key_immediate_witness :
    (applyOnlyFlags defaultArgs).no_gpt = false
    ∧ Event.gptReported (.failed gptKeyMsg)
        ∈ async_main_events defaultArgs { cKeys with openai := none } cNetsOk 15 :=
  ⟨rfl, (C7_missing_key_immediate.2.2.2.2.2.2) defaultArgs cKeys cNetsOk 15 rfl⟩

/-- C8: in every run the OCR backend is launched at most once
(regardless of how many dependent backends are enabled), and any two
dependent-backend launches read the same published `ExtractedQuestion`
value. -/
theorem C8_single_ocr_shared (a : Args) (ks : Keys) (ns : Nets) (t : Nat) :
    countOcrInvoked (async_main_events a ks ns t) ≤ 1
    ∧ (∀ m q m2 q2,
        Event.perplexityInvoked m q ∈ async_main_events a ks ns t →
        Event.perplexityInvoked m2 q2 ∈ async_main_events a ks ns t → q = q2) := by
  constructor
  · rw [countOcr_async]
    split <;> simp
  · intro m q m2 q2 h1 h2
    have e1 := perplexityInvoked_pub a ks ns t m q h1
    have e2 := perplexityInvoked_pub a ks ns t m2 q2 h2
    rw [e1] at e2
    exact Option.some.inj e2

/-- C8 witness: with all three dependent backends enabled, the run
launches OCR exactly once and both sampled dependent launches carry the
same OCR value. -/
theorem C8_single_ocr_shared_witness :
    Event.perplexityInvoked sonarName demoQ
        ∈ async_main_events defaultArgs cKeys cNetsOk 15
    ∧ Event.perplexityInvoked sonarProName demoQ
        ∈ async_main_events defaultArgs cKeys cNetsOk 15
    ∧ countOcrInvoked (async_main_events defaultArgs cKeys cNetsOk 15) = 1
    ∧ demoQ = demoQ :=
  ⟨by decide, by decide, by decide,
   (C8_single_ocr_shared defaultArgs cKeys cNetsOk 15).2 sonarName demoQ
     sonarProName demoQ (by decide) (by decide)⟩


/-- C2 counterexample: the claim "each dependent-backend skip is
recorded as a reportable outcome distinct from a backend failure" is
false.  In a run where OCR times out (every backend enabled, all keys
present), the full event list contains the two vision outcomes and the
OCR failure but no event of any kind for the dependent backends — the
skip is silent, nothing is recorded per dependent backend. -/
theorem C2_counterexample :
    async_main_events defaultArgs cKeys cNets2 15
      = [.gptReported (.success ta0), .mistralReported (.success taM),
         .ocrInvoked, .ocrReported (.failed (prepWrap (geminiTimeoutMsg 15)))]
    ∧ (async_main_events defaultArgs cKeys cNets2 15).any isPerplexityEvent = false := by
  exact ⟨by decide, by decide⟩

/-- C2 amended: whenever the OCR backend does not succeed (timeout or
failure), every dependent backend is skipped entirely — no launch and no
recorded outcome for any of them (the skip is silent; only the OCR
backend's own outcome is reported) — while the independent vision
backends still report their outcomes. -/
theorem C2_skip_is_silent (a : Args) (ks : Keys) (ns : Nets) (t : Nat)
    (h : ∀ q, extract_text_with_gemini ks.gemini t ns.gemini ≠ .ok q) :
    ((async_main_events a ks ns t).any isPerplexityEvent = false)
    ∧ ((applyOnlyFlags a).no_gpt = false →
        Event.gptReported (process_with_gpt (analyze_trivia_with_gpt4o ks.openai t ns.gpt))
          ∈ async_main_events a ks ns t)
    ∧ ((applyOnlyFlags a).no_mistral = false →
        Event.mistralReported
            (process_with_mistral (analyze_trivia_with_mistral ks.mistral t ns.mistral))
          ∈ async_main_events a ks ns t)
    ∧ ((applyOnlyFlags a).no_gemini_ocr = false →
        Event.ocrReported (process_with_gemini_ocr ks.gemini t ns.gemini).2
          ∈ async_main_events a ks ns t) := by
  have hpub : (process_with_gemini_ocr ks.gemini t ns.gemini).1 = none := by
    unfold process_with_gemini_ocr
    rcases hx : extract_text_with_gemini ks.gemini t ns.gemini with e | qv
    · rcases e with m | m <;> simp
    · exact absurd hx (h qv)
  refine ⟨?_, ?_, ?_, ?_⟩
  · unfold async_main_events process_ocr_and_perplexity
    rcases hq : process_with_gemini_ocr ks.gemini t ns.gemini with ⟨qq, o⟩
    rw [hq] at hpub
    rcases qq with _ | q2
    · simp only [List.any_append]
      by_cases h1 : (applyOnlyFlags a).no_gpt <;>
        by_cases h2 : (applyOnlyFlags a).no_mistral <;>
          by_cases hg : (applyOnlyFlags a).no_gemini_ocr <;>
            simp [h1, h2, hg, isPerplexityEvent]
    · exact absurd hpub (by simp)
  · intro hf
    unfold async_main_events
    simp [hf]
  · intro hf
    unfold async_main_events
    simp [hf]
  · intro hf
    unfold async_main_events process_ocr_and_perplexity
    rcases hq : process_with_gemini_ocr ks.gemini t ns.gemini with ⟨qq, o⟩
    rcases qq with _ | q2 <;> simp [hf, hq]

/-- C2 witness: concrete run with OCR timing out; the hypotheses hold
and the conclusions follow. -/
theorem C2_skip_is_silent_witness :
    (∀ q, extract_text_with_gemini cKeys.gemini 15 cNets2.gemini ≠ .ok q)
    ∧ ((async_main_events defaultArgs cKeys cNets2 15).any isPerplexityEvent = false)
    ∧ ((applyOnlyFlags defaultArgs).no_gpt = false →
        Event.gptReported
            (process_with_gpt (analyze_trivia_with_gpt4o cKeys.openai 15 cNets2.gpt))
          ∈ async_main_events defaultArgs cKeys cNets2 15) := by
  have h : ∀ q, extract_text_with_gemini cKeys.gemini 15 cNets2.gemini ≠ .ok q := by
    intro q hq
    rw [show extract_text_with_gemini cKeys.gemini 15 cNets2.gemini
        = .error (.valueError (prepWrap (geminiTimeoutMsg 15))) from rfl] at hq
    exact Except.noConfusion hq
  have hc := C2_skip_is_silent defaultArgs cKeys cNets2 15 h
  exact ⟨h, hc.1, hc.2.1⟩

end TriviaSpeed
